import Mathlib

/-!
Verification of the Parity Reconciliation Engine of `compare_products_v2.0.py`
(Amazon vs IcePIM product-listing reconciliation).

The Python source is shallowly embedded: every definition below models a
function or a code region of `src/compare_products_v2.0.py`, with the source
line numbers given in the doc comments.  Python strings are modelled as Lean
`String`, Python lists as `List`, Python `None`/exception outcomes as
`Option`/explicit outcome types.  Python's Unicode-aware `str.lower` and the
regex class `\s` are modelled with `Char.toLower` and `Char.isWhitespace`,
which agree with them on the ASCII texts the claims are about.
-/

namespace AMZ

/-! ## Text normalizer (function `clean`, lines 1114-1115) -/

/-- The five punctuation characters of the regex class in
`re.sub(r'[.,;™©\s]+', '', ...)` (line 1115), without the whitespace part. -/
def isPunctChar (c : Char) : Bool :=
  c = '.' || c = ',' || c = ';' || c = '™' || c = '©'

/-- One character of the full regex class `[.,;™©\s]` of line 1115:
punctuation or whitespace. -/
def isStripChar (c : Char) : Bool :=
  isPunctChar c || c.isWhitespace

/-- Python `text.strip()`: drop leading and trailing whitespace
(char-list level, so that proofs do not depend on `String.trim` internals). -/
def strip_ends (l : List Char) : List Char :=
  ((l.dropWhile Char.isWhitespace).reverse.dropWhile Char.isWhitespace).reverse

/-- `clean(text)` of line 1114-1115:
`re.sub(r'[.,;™©\s]+', '', text.strip().lower())`.
Replacing every maximal run of class characters by the empty string is the
same as deleting every class character, hence the `filter`. -/
def clean (s : String) : String :=
  String.mk (((strip_ends s.data).map Char.toLower).filter (fun c => !isStripChar c))

/-- Whitespace-run collapsing, as worded by the spec ("collapses whitespace"):
every maximal run of whitespace becomes one space.  This is NOT what the
source does (the source deletes the run); the definition exists only to be
compared against `clean`. -/
def collapse_ws : List Char → List Char
  | [] => []
  | [c] => if c.isWhitespace then [' '] else [c]
  | c1 :: c2 :: rest =>
    if c1.isWhitespace && c2.isWhitespace then collapse_ws (c2 :: rest)
    else (if c1.isWhitespace then ' ' else c1) :: collapse_ws (c2 :: rest)

/-- The Normalizer as the spec words it (spec 4.1): "Strips punctuation from a
fixed set `{. , ; ™ ©}`, collapses whitespace, lowercases."  Written from the
spec's words, to be compared with the source's `clean`. -/
def normalize_spec (s : String) : String :=
  String.mk ((collapse_ws (s.data.filter (fun c => !isPunctChar c))).map Char.toLower)

/-! ## Text parity (lines 1117-1124) -/

/-- Line 1117: `title_match = clean(amazon_data["title"]) == clean(icepim_data["title"])`. -/
def title_match (aTitle iTitle : String) : Bool :=
  clean aTitle == clean iTitle

/-- Lines 1118-1121: equal length and pointwise equality of cleaned bullets
(`zip` truncates, the separate length test makes the comparison positional). -/
def bullets_match (aBullets iBullets : List String) : Bool :=
  (aBullets.length == iBullets.length) &&
  (aBullets.zip iBullets).all (fun p => clean p.1 == clean p.2)

/-- Rendering of a boolean comparison as the report verdict string
(lines 1123-1124, 1156-1158, 1171-1173). -/
def verdict (b : Bool) : String :=
  if b then "MATCH" else "DIFFER"

/-! ## Video parity (lines 1129-1152) -/

/-- The two sentinel duration values of line 1135/1137: `"?:??"` (duration not
loaded, line 654) and `"error"` (modal error, line 668). -/
def video_sentinels : List String := ["?:??", "error"]

/-- Line 1135: `any(d in ["?:??", "error"] for d in icepim_v_dur)`. -/
def has_unknown_in_icepim (icepimDur : List String) : Bool :=
  icepimDur.any (fun d => decide (d ∈ video_sentinels))

/-- Line 1137: `[d for d in icepim_v_dur if d not in ["?:??", "error"]]`. -/
def icepim_known_dur (icepimDur : List String) : List String :=
  icepimDur.filter (fun d => !decide (d ∈ video_sentinels))

/-- Line 1143: `icepim_known_set.issubset(amazon_v_dur_set)` (set membership is
list membership). -/
def icepim_known_subset (amazonDur icepimDur : List String) : Bool :=
  (icepim_known_dur icepimDur).all (fun d => decide (d ∈ amazonDur))

/-- Lines 1140-1149: the video verdict string, exactly the if/elif/else chain. -/
def video_status (amazonDur icepimDur : List String) : String :=
  if has_unknown_in_icepim icepimDur then "Warning"
  else if icepim_known_subset amazonDur icepimDur then "Match"
  else "Need upload"

/-- Line 1148: `missing = icepim_known_set - amazon_v_dur_set`, rendered
`sorted(missing)` at line 1149.  Set difference of distinct known durations,
reported as a sorted list. -/
def video_missing (amazonDur icepimDur : List String) : List String :=
  List.insertionSort (fun x y => x ≤ y)
    (((icepim_known_dur icepimDur).dedup).filter (fun d => !decide (d ∈ amazonDur)))

/-- Python `sorted(set(l))`: the distinct elements of `l` in increasing order
(used for `sorted(amazon_v_dur_set)` in the detail strings, lines 1142-1149). -/
def sorted_dedup (l : List String) : List String :=
  List.insertionSort (fun x y => x ≤ y) l.dedup

/-- The `video_details` f-strings of lines 1142, 1145, 1149.  Python renders
`sorted(missing)` with `repr` quotes around each string; the model joins the
same sorted list with the list `toString`, keeping contents and order. -/
def video_details_str (aCount : Nat) (amazonDur : List String)
    (iCount : Nat) (icepimDur : List String) : String :=
  let left := "A:" ++ toString aCount ++ " (" ++
    String.intercalate ", " (sorted_dedup amazonDur) ++ ") | I:" ++
    toString iCount ++ " (" ++ String.intercalate ", " icepimDur ++ ")"
  if has_unknown_in_icepim icepimDur then
    left ++ " → WARNING: some IcePIM videos not loaded"
  else if icepim_known_subset amazonDur icepimDur then
    left ++ " → All IcePIM videos present on Amazon"
  else
    left ++ " → Need upload: missing " ++ toString (video_missing amazonDur icepimDur)

/-! ## Image parity (`compare_images_by_name_strict`, lines 837-896) -/

/-- One file of a gallery folder: its filename and the result of
`get_dhash` on its bytes (line 833-835; `none` models a hash failure, i.e.
`remove_white_bg_and_crop` returning `None`).  The hash is a property of the
file's content, so it travels with the file whichever folder slot the folder
is passed in. -/
structure ImgFile where
  name : String
  hash : Option String
deriving DecidableEq, Repr

/-- IMAGE_THRESHOLD (line 36). -/
def IMAGE_THRESHOLD : Nat := 3

/-- Python `f.lower()` at the char-list level. -/
def name_lower (f : String) : List Char :=
  f.data.map Char.toLower

/-- Python `l.endswith(suffix)` on char lists. -/
def list_ends_with (l suffix : List Char) : Bool :=
  (l.reverse.take suffix.length).reverse == suffix

/-- Line 843: `f.lower().endswith(('.jpg', '.jpeg'))` (Amazon-folder filter). -/
def isJpg (f : String) : Bool :=
  list_ends_with (name_lower f) ".jpg".data || list_ends_with (name_lower f) ".jpeg".data

/-- Line 844: `f.lower().endswith(('.jpg', '.jpeg', '.png'))` (PIM-folder filter). -/
def isJpgPng (f : String) : Bool :=
  isJpg f || list_ends_with (name_lower f) ".png".data

/-- `os.path.splitext(f)[0]` (lines 846-847): drop the last extension; a
filename with no dot, or whose only dots are leading, is returned whole. -/
def splitextBase (f : String) : String :=
  let cs := f.data
  let dotIdxs := (List.range cs.length).filter (fun i => cs.getD i ' ' == '.')
  match dotIdxs.getLast? with
  | none => f
  | some i =>
    if (List.range i).all (fun j => cs.getD j ' ' == '.') then f
    else String.mk (cs.take i)

/-- Line 843: the Amazon-side image files of the folder. -/
def a_files (amazonFolder : List ImgFile) : List ImgFile :=
  amazonFolder.filter (fun f => isJpg f.name)

/-- Line 844: the PIM-side image files of the folder. -/
def i_files (icepimFolder : List ImgFile) : List ImgFile :=
  icepimFolder.filter (fun f => isJpgPng f.name)

/-- Lines 846-847: the base-keyed dict `{splitext(f)[0]: f for f in files}`;
for a duplicated base the later file wins, as in a Python dict comprehension. -/
def dict_get (files : List ImgFile) (base : String) : Option ImgFile :=
  (files.filter (fun f => splitextBase f.name == base)).getLast?

/-- Line 849 + 853: `sorted(set(a_dict) | set(i_dict))`, from the two filename
lists. -/
def all_bases (aNames iNames : List String) : List String :=
  List.insertionSort (fun x y => x ≤ y)
    ((aNames.map splitextBase ++ iNames.map splitextBase).dedup)

/-- Line 862: `sum(c1 != c2 for c1, c2 in zip(h1, h2))` — the number of
differing CHARACTERS of the two hex digest strings. -/
def hash_dist (h1 h2 : String) : Nat :=
  (h1.data.zip h2.data).countP (fun p => decide (p.1 ≠ p.2))

/-- Line 863: `status = "MATCH" if dist <= IMAGE_THRESHOLD else "DIFFER"`. -/
def pair_status (h1 h2 : String) : String :=
  if hash_dist h1 h2 ≤ IMAGE_THRESHOLD then "MATCH" else "DIFFER"

/-- Lines 861-863 applied to two optional hashes: `matched` is incremented
only when both hashes exist (`if h1 and h2`) and the distance is within the
threshold; a failed hash (line 868, ERROR) contributes nothing. -/
def hash_ok : Option String → Option String → Bool
  | some h1, some h2 => decide (hash_dist h1 h2 ≤ IMAGE_THRESHOLD)
  | _, _ => false

/-- A base key forms a pair: lines 854-858, both dicts have the key. -/
def pair_both (aF iF : List ImgFile) (base : String) : Bool :=
  (dict_get aF base).isSome && (dict_get iF base).isSome

/-- A base key is counted in `matched` (lines 858-865). -/
def pair_matched (aF iF : List ImgFile) (base : String) : Bool :=
  match dict_get aF base, dict_get iF base with
  | some fa, some fi => hash_ok fa.hash fi.hash
  | _, _ => false

/-- The bases the loop of line 853 runs over, for the two (filtered) folders. -/
def img_bases (amazonFolder icepimFolder : List ImgFile) : List String :=
  all_bases ((a_files amazonFolder).map ImgFile.name)
    ((i_files icepimFolder).map ImgFile.name)

/-- `total_pairs` after the loop (lines 850-858): one per base present in both. -/
def total_pairs (amazonFolder icepimFolder : List ImgFile) : Nat :=
  (img_bases amazonFolder icepimFolder).countP
    (fun b => pair_both (a_files amazonFolder) (i_files icepimFolder) b)

/-- `matched` after the loop (lines 851-865). -/
def matched_count (amazonFolder icepimFolder : List ImgFile) : Nat :=
  (img_bases amazonFolder icepimFolder).countP
    (fun b => pair_matched (a_files amazonFolder) (i_files icepimFolder) b)

/-- Return value of `compare_images_by_name_strict` (lines 892-896). -/
structure ImgCompareResult where
  summary : String
  images_match : Bool
  detailed_summary : String
deriving DecidableEq, Repr

/-- Lines 843-896 of `compare_images_by_name_strict`, after the existence
guard: counts, pair loop, and the three-way aggregation of lines 878-888. -/
def compare_images_by_name_strict (amazonFolder icepimFolder : List ImgFile) :
    ImgCompareResult :=
  let amazon_count := (a_files amazonFolder).length
  let pim_count := (i_files icepimFolder).length
  let matched := matched_count amazonFolder icepimFolder
  let total := total_pairs amazonFolder icepimFolder
  let mismatch_count := total - matched
  if amazon_count = pim_count ∧ matched = total then
    { summary := toString amazon_count ++ "/" ++ toString pim_count,
      images_match := true,
      detailed_summary := toString amazon_count ++ " Amazon / " ++
        toString pim_count ++ " PIM, all MATCH" }
  else if amazon_count ≠ pim_count then
    { summary := toString amazon_count ++ "/" ++ toString pim_count,
      images_match := false,
      detailed_summary := toString amazon_count ++ " Amazon / " ++
        toString pim_count ++ " PIM, Different q-ty, " ++
        toString mismatch_count ++ " Mismatch" }
  else
    { summary := toString amazon_count ++ "/" ++ toString pim_count,
      images_match := false,
      detailed_summary := toString amazon_count ++ " Amazon / " ++
        toString pim_count ++ " PIM, " ++ toString matched ++ " Match, " ++
        toString mismatch_count ++ " Mismatch" }

/-- Lines 839-841: the missing-PIM-folder guard in front of the comparison. -/
def compare_images_guarded (amazonFolder : List ImgFile)
    (icepimFolder : Option (List ImgFile)) : ImgCompareResult :=
  match icepimFolder with
  | none =>
    { summary := "0/0", images_match := false, detailed_summary := "PIM folder missing" }
  | some fold => compare_images_by_name_strict amazonFolder fold

/-! ## Spec-worded bit Hamming distance (spec 4.3 step 5)

The spec states the pair verdict is MATCH iff the Hamming distance between the
two dHash values is at most 3 BITS.  The definitions below follow the spec's
words (bit-level distance of the hex digests) and exist to be compared with
the source's character-level `hash_dist`. -/

/-- Value of one hex digit of an `imagehash` digest. -/
def hex_val (c : Char) : Nat :=
  if c.isDigit then c.toNat - 48
  else if 'a' ≤ c && c ≤ 'f' then c.toNat - 87
  else if 'A' ≤ c && c ≤ 'F' then c.toNat - 55
  else 0

/-- Number of set bits of a nibble. -/
def nibble_bits (n : Nat) : Nat :=
  (List.range 4).countP (fun k => n.testBit k)

/-- Bit-level Hamming distance of two hex digests, as the spec words it. -/
def hamming_bits_spec (h1 h2 : String) : Nat :=
  ((h1.data.zip h2.data).map
    (fun p => nibble_bits (Nat.xor (hex_val p.1) (hex_val p.2)))).sum

/-! ## Snapshots, per-item processing and the batch loop (lines 976-1199)

The browser environment is abstracted: for each work item the model is given
what the outside world does at each relevant step (does the unguarded
`driver.get` of line 981 raise, what does each parser's `try` body produce,
what the gallery downloads contain).  Everything the Python after those steps
computes is modelled faithfully. -/

/-- Dict returned by `parse_amazon` (lines 494-501 / 511-518 / 521-522). -/
structure AmazonData where
  title : String
  bullets : List String
  has_manual : Bool
  store_correct : Bool
  videos_count : Nat
  videos_durations : List String
deriving DecidableEq, Repr

/-- Dict returned by `parse_icepim` (lines 585-591 / 595); the two degraded
returns without video keys are read back in `main` with
`.get("videos_count", 0)` / `.get("videos_durations", [])` (lines 1132-1133),
so the model gives them the defaulted fields. -/
structure IcePimData where
  title : String
  bullets : List String
  status : String
  videos_count : Nat
  videos_durations : List String
deriving DecidableEq, Repr

/-- Outcome of the body of a parser's `try`: a successful dict, or an
exception caught by its `except`. -/
inductive ParseOutcome (α : Type) where
  | ok (data : α)
  | failed
deriving DecidableEq, Repr

/-- `parse_amazon` never raises: its catch-all `except` (lines 519-522)
degrades to placeholders.  When video checking is off the video fields are
forced to `0` / `[]` (lines 488-492). -/
def parse_amazon_result (checkVideos : Bool) (p : ParseOutcome AmazonData) : AmazonData :=
  match p with
  | .ok d =>
    if checkVideos then d
    else { d with videos_count := 0, videos_durations := [] }
  | .failed =>
    { title := "NOT FOUND", bullets := ["NOT FOUND"], has_manual := false,
      store_correct := false, videos_count := 0, videos_durations := [] }

/-- `parse_icepim` never raises: its catch-all `except` (lines 593-595)
degrades to placeholders with `status = "ERROR"`.  Video gating as in
lines 579-583. -/
def parse_icepim_result (checkVideos : Bool) (p : ParseOutcome IcePimData) : IcePimData :=
  match p with
  | .ok d =>
    if checkVideos then d
    else { d with videos_count := 0, videos_durations := [] }
  | .failed =>
    { title := "NOT FOUND", bullets := ["NOT FOUND"], status := "ERROR",
      videos_count := 0, videos_durations := [] }

/-- What the outside world does while one work item is processed. -/
structure ItemEnv where
  /-- `re.search(r"/dp/([A-Z0-9]{10})", amazon_url)` result (lines 1087-1088). -/
  asin_from_url : Option String
  /-- Whether `amazon_driver.get(amazon_url)` (line 981, OUTSIDE the `try` of
  `parse_amazon`) raises. -/
  nav_raises : Bool
  /-- Outcome of the `try` body of `parse_amazon`. -/
  amazon_parsed : ParseOutcome AmazonData
  /-- Contents of the `tmp_amazon_<asin>` folder written by
  `download_amazon_images` (line 988, only when image checking is on). -/
  amazon_gallery : List ImgFile
  /-- Outcome of the `try` body of `parse_icepim`. -/
  icepim_parsed : ParseOutcome IcePimData
  /-- `download_icepim_images` result (lines 997-1000): `some gallery` when the
  zip arrived and was extracted, `none` for the `(None, None)` timeout path. -/
  icepim_gallery : Option (List ImgFile)
deriving DecidableEq, Repr

/-- One row of `results_report.csv` / the PrettyTable (lines 1154-1180). -/
structure Row where
  asin : String
  titleV : String
  bulletsV : String
  imagesV : String
  icepimStatus : String
  userManual : String
  brandStore : String
  videoV : String
  videoDetails : String
  imagesDetails : String
deriving DecidableEq, Repr

/-- Lines 1087-1088: the item identifier, `unknown_<idx>` when the url has no
parsable ASIN. -/
def item_asin (idx : Nat) (env : ItemEnv) : String :=
  match env.asin_from_url with
  | some a => a
  | none => "unknown_" ++ toString idx

/-- Path of the temporary Amazon image folder (line 679). -/
def tmp_amazon (asin : String) : String := "tmp_amazon_" ++ asin

/-- Path of the temporary extracted PIM gallery (line 807). -/
def tmp_icepim (asin : String) : String := "tmp_icepim_" ++ asin

/-- Path of the downloaded gallery zip archive (lines 803-805; the model names
it per item). -/
def zip_name (asin : String) : String := "downloads/" ++ asin ++ ".zip"

/-- The three per-item artifact paths removed by lines 1182-1186. -/
def cleanup_paths (asin : String) : List String :=
  [tmp_amazon asin, tmp_icepim asin, zip_name asin]

/-- Lines 1101-1112: the images verdict used for the row — the gallery
comparison when image checking is on, the fixed disabled placeholder
otherwise. -/
def images_result (checkImages : Bool) (amazonGallery : List ImgFile)
    (icepimFolder : Option (List ImgFile)) : ImgCompareResult :=
  if checkImages then compare_images_guarded amazonGallery icepimFolder
  else { summary := "", images_match := true, detailed_summary := "Image check disabled" }

/-- Lines 1154-1180: assembling the report row from the item's data. -/
def item_row (asin : String) (amazon_data : AmazonData) (icepim_data : IcePimData)
    (img : ImgCompareResult) : Row :=
  { asin := asin,
    titleV := verdict (title_match amazon_data.title icepim_data.title),
    bulletsV := verdict (bullets_match amazon_data.bullets icepim_data.bullets),
    imagesV := verdict img.images_match,
    icepimStatus := icepim_data.status,
    userManual := if amazon_data.has_manual then "YES" else "NO",
    brandStore := if amazon_data.store_correct then "YES" else "NO",
    videoV := video_status amazon_data.videos_durations icepim_data.videos_durations,
    videoDetails := video_details_str amazon_data.videos_count
      amazon_data.videos_durations icepim_data.videos_count
      icepim_data.videos_durations,
    imagesDetails := img.detailed_summary }

/-- Result of one iteration of the `for` loop of line 1086: the row written
(or `none` when an exception escaped the loop body), and the on-disk artifact
paths this item leaves behind after the iteration ends. -/
structure ItemResult where
  row : Option Row
  leftover : List String
deriving DecidableEq, Repr

/-- One iteration of the main loop (lines 1086-1189).

Both pool futures run to completion (line 1094's `with` joins them); the
IcePIM side never raises, the Amazon side raises exactly when the unguarded
`driver.get` of line 981 does, and that exception resurfaces at
`future_amazon.result()` (line 1098), skipping the rest of the body — in
particular the cleanup of lines 1182-1186. -/
def run_item (checkImages checkVideos : Bool) (idx : Nat) (env : ItemEnv) : ItemResult :=
  let asin := item_asin idx env
  let icepim_data := parse_icepim_result checkVideos env.icepim_parsed
  let pim_active := checkImages && (icepim_data.status == "Approved")
  let icepim_folder := if pim_active then env.icepim_gallery else none
  let icepim_artifacts :=
    if pim_active && env.icepim_gallery.isSome then [tmp_icepim asin, zip_name asin]
    else []
  if env.nav_raises then
    { row := none, leftover := icepim_artifacts }
  else
    let amazon_data := parse_amazon_result checkVideos env.amazon_parsed
    let amazon_artifacts := if checkImages then [tmp_amazon asin] else []
    let img := images_result checkImages env.amazon_gallery icepim_folder
    let saved :=
      if checkImages && (pim_active && env.icepim_gallery.isSome) && !img.images_match
      then ["galleries for upload/" ++ asin ++ ".zip"] else []
    let created := amazon_artifacts ++ icepim_artifacts ++ saved
    { row := some (item_row asin amazon_data icepim_data img),
      leftover := created.filter (fun p => !decide (p ∈ cleanup_paths asin)) }

/-- Result of a whole run of `main`'s loop. -/
structure BatchResult where
  rows : List Row
  leftover : List String
  aborted : Bool
deriving DecidableEq, Repr

/-- The loop of line 1086, item index starting at `idx`: on an uncaught
exception the run aborts (the exception propagates out of `main`), keeping the
rows already appended to the CSV and whatever files are on disk. -/
def run_batch_go (checkImages checkVideos : Bool) (idx : Nat) :
    List ItemEnv → BatchResult
  | [] => { rows := [], leftover := [], aborted := false }
  | env :: rest =>
    let r := run_item checkImages checkVideos idx env
    match r.row with
    | some row =>
      let tail := run_batch_go checkImages checkVideos (idx + 1) rest
      { rows := row :: tail.rows, leftover := r.leftover ++ tail.leftover,
        aborted := tail.aborted }
    | none => { rows := [], leftover := r.leftover, aborted := true }

/-- `main`'s loop over the whole work list (`enumerate(rows, start=1)`). -/
def run_batch (checkImages checkVideos : Bool) (items : List ItemEnv) : BatchResult :=
  run_batch_go checkImages checkVideos 1 items

/-! ## Concrete environments used by closed theorems -/

/-- Work item whose `amazon_driver.get` (line 981) raises. -/
def envC7_nav : ItemEnv :=
  { asin_from_url := some "B0NAVFAIL1", nav_raises := true,
    amazon_parsed := ParseOutcome.failed, amazon_gallery := [],
    icepim_parsed := ParseOutcome.ok
      { title := "T", bullets := ["b1"], status := "Approved",
        videos_count := 0, videos_durations := [] },
    icepim_gallery := none }

/-- Work item whose navigation succeeds but both parsers' `try` bodies raise. -/
def envC7_parse : ItemEnv :=
  { asin_from_url := none, nav_raises := false,
    amazon_parsed := ParseOutcome.failed, amazon_gallery := [],
    icepim_parsed := ParseOutcome.failed, icepim_gallery := none }

/-- Work item where the Amazon navigation raises AFTER the concurrently
running IcePIM future has already downloaded and extracted the gallery zip. -/
def envC8_leak : ItemEnv :=
  { asin_from_url := some "B00000000A", nav_raises := true,
    amazon_parsed := ParseOutcome.failed, amazon_gallery := [],
    icepim_parsed := ParseOutcome.ok
      { title := "T", bullets := ["b"], status := "Approved",
        videos_count := 0, videos_durations := [] },
    icepim_gallery := some [] }

/-- Work item that completes normally with an extracted gallery. -/
def envC8_ok : ItemEnv :=
  { asin_from_url := some "B0CLEANUP1", nav_raises := false,
    amazon_parsed := ParseOutcome.failed, amazon_gallery := [],
    icepim_parsed := ParseOutcome.ok
      { title := "T", bullets := ["b"], status := "Approved",
        videos_count := 0, videos_durations := [] },
    icepim_gallery := some [] }

/-- Degraded work item for an image-check-disabled run. -/
def envC10_off : ItemEnv :=
  { asin_from_url := none, nav_raises := false,
    amazon_parsed := ParseOutcome.failed, amazon_gallery := [],
    icepim_parsed := ParseOutcome.failed, icepim_gallery := none }

/-- Work item of an image-check-enabled run whose single gallery pair matches. -/
def envC10_match : ItemEnv :=
  { asin_from_url := some "B0IMG000AA", nav_raises := false,
    amazon_parsed := ParseOutcome.ok
      { title := "T", bullets := ["b"], has_manual := false, store_correct := false,
        videos_count := 0, videos_durations := [] },
    amazon_gallery := [{ name := "B0IMG000AA.MAIN.jpg", hash := some "0123456789abcdef" }],
    icepim_parsed := ParseOutcome.ok
      { title := "T", bullets := ["b"], status := "Approved",
        videos_count := 0, videos_durations := [] },
    icepim_gallery := some [{ name := "B0IMG000AA.MAIN.png", hash := some "0123456789abcdef" }] }

/-- The single report row of `run_batch false false [envC10_off]`. -/
def rowC10 : Row :=
  { asin := "unknown_1", titleV := "MATCH", bulletsV := "MATCH", imagesV := "MATCH",
    icepimStatus := "ERROR", userManual := "NO", brandStore := "NO", videoV := "Match",
    videoDetails := "A:0 () | I:0 () → All IcePIM videos present on Amazon",
    imagesDetails := "Image check disabled" }

/-! ## Helper lemmas -/

/-- A verdict string is MATCH exactly for a true comparison. -/
theorem verdict_match_iff (b : Bool) : verdict b = "MATCH" ↔ b = true := by
cases b <;> decide

/-- Char.toLower fixes whitespace characters. -/
theorem toLower_isWhitespace (c : Char) (h : c.isWhitespace = true) :
    Char.toLower c = c := by
simp only [Char.isWhitespace, Bool.or_eq_true, decide_eq_true_eq] at h
rcases h with ((h | h) | h) | h <;> rw [h] <;> decide

/-- Leading whitespace is irrelevant to the lower-filter pipeline of clean. -/
theorem filter_toLower_dropWhile (l : List Char) :
    ((l.dropWhile Char.isWhitespace).map Char.toLower).filter (fun c => !isStripChar c) =
    (l.map Char.toLower).filter (fun c => !isStripChar c) := by
induction l with
| nil => rfl
| cons c t ih =>
  rw [List.dropWhile_cons]
  by_cases h : c.isWhitespace = true
  · rw [if_pos h, ih]
    have hk : isStripChar (Char.toLower c) = true := by
      rw [toLower_isWhitespace c h]
      simp [isStripChar, h]
    simp [List.filter_cons, hk]
  · rw [if_neg h]

/-- Stripping the ends is irrelevant to the lower-filter pipeline of clean. -/
theorem filter_toLower_strip_ends (l : List Char) :
    ((strip_ends l).map Char.toLower).filter (fun c => !isStripChar c) =
    (l.map Char.toLower).filter (fun c => !isStripChar c) := by
unfold strip_ends
rw [List.map_reverse, List.filter_reverse, filter_toLower_dropWhile,
  List.map_reverse, List.filter_reverse, List.reverse_reverse,
  filter_toLower_dropWhile]

/-- Pointwise characterization of the zipped bullet comparison. -/
theorem clean_zip_all_iff (xs : List String) : ∀ (ys : List String),
    xs.length = ys.length →
    (((xs.zip ys).all (fun p => clean p.1 == clean p.2)) = true ↔
      ∀ (i : Nat) (hx : i < xs.length) (hy : i < ys.length),
        clean (xs.get ⟨i, hx⟩) = clean (ys.get ⟨i, hy⟩)) := by
induction xs with
| nil =>
  intro ys _
  constructor
  · intro _ i hx _
    simp at hx
  · intro _
    simp
| cons x xs ih =>
  intro ys h
  cases ys with
  | nil => simp at h
  | cons y ys =>
    have hlen : xs.length = ys.length := by simpa using h
    constructor
    · intro hall i hx hy
      rw [List.zip_cons_cons, List.all_cons, Bool.and_eq_true] at hall
      cases i with
      | zero => simpa [beq_iff_eq] using hall.1
      | succ j =>
        exact ((ih ys hlen).mp hall.2) j (by simpa using hx) (by simpa using hy)
    · intro hp
      rw [List.zip_cons_cons, List.all_cons, Bool.and_eq_true]
      refine ⟨by simpa [beq_iff_eq] using hp 0 (by simp) (by simp), ?_⟩
      exact (ih ys hlen).mpr (fun j hj1 hj2 => by
        simpa using hp (j + 1) (by simpa using hj1) (by simpa using hj2))

/-! ## Claim theorems: text parity -/

/-- Claim C1: for every pair of snapshots, the title verdict is MATCH iff the
normalized titles are equal, and the bullets verdict is MATCH iff the bullet
sequences have equal length and equal normalized bullets at each index; the
reordered but set-equal pair ["a","b"] / ["b","a"] yields DIFFER. -/
theorem C1_text_parity :
    (∀ t1 t2 : String, verdict (title_match t1 t2) = "MATCH" ↔ clean t1 = clean t2)
    ∧ (∀ ab ib : List String,
        verdict (bullets_match ab ib) = "MATCH" ↔
          (ab.length = ib.length ∧
            ∀ (i : Nat) (ha : i < ab.length) (hb : i < ib.length),
              clean (ab.get ⟨i, ha⟩) = clean (ib.get ⟨i, hb⟩)))
    ∧ List.Perm ["a", "b"] ["b", "a"]
    ∧ verdict (bullets_match ["a", "b"] ["b", "a"]) = "DIFFER" := by
refine ⟨?_, ?_, ?_, by decide⟩
· intro t1 t2
  rw [verdict_match_iff]
  simp [title_match]
· intro ab ib
  rw [verdict_match_iff]
  unfold bullets_match
  rw [Bool.and_eq_true]
  constructor
  · rintro ⟨h1, h2⟩
    have hlen : ab.length = ib.length := by simpa using h1
    exact ⟨hlen, (clean_zip_all_iff ab ib hlen).mp h2⟩
  · rintro ⟨hlen, hp⟩
    exact ⟨by simpa using hlen, (clean_zip_all_iff ab ib hlen).mpr hp⟩
· exact List.Perm.swap "b" "a" []

/-- Witness for C1 at a concrete pair of titles. -/
theorem C1_text_parity_witness :
    verdict (title_match "Hello, World™" "hello world") = "MATCH" :=
(C1_text_parity.1 "Hello, World™" "hello world").mpr (by decide)

/-- Claim C2 counterexample: the source's clean DELETES whitespace instead of
collapsing it — on "a b" it yields "ab" while the spec-worded collapsing
normalizer yields "a b"; consequently two titles differing by an inner space
compare MATCH. -/
theorem C2_counterexample :
    clean "a b" = "ab"
    ∧ normalize_spec "a b" = "a b"
    ∧ clean "a b" ≠ normalize_spec "a b"
    ∧ title_match "a b" "ab" = true := by decide

/-- Claim C2 (amended): normalize is a pure total function that lowercases and
strips every punctuation character of the fixed set AND every whitespace
character (removing whitespace entirely, rather than collapsing it); text
comparison is exact equality after this normalization, so texts differing only
in case or in that punctuation compare equal. -/
theorem C2_amended :
    (∀ s : String, clean s =
        String.mk ((s.data.map Char.toLower).filter (fun c => !isStripChar c)))
    ∧ (∀ s t : String, title_match s t = true ↔ clean s = clean t)
    ∧ title_match "Hello, World™" "hello world" = true := by
refine ⟨?_, ?_, by decide⟩
· intro s
  unfold clean
  rw [filter_toLower_strip_ends]
· intro s t
  simp [title_match]

/-- Witness for C2 (amended) at a concrete string. -/
theorem C2_amended_witness :
    clean " A  b " =
      String.mk ((" A  b ".data.map Char.toLower).filter (fun c => !isStripChar c)) :=
C2_amended.1 " A  b "

/-! ## Claim theorems: video parity -/

/-- Claim C3: any sentinel among the PIM durations yields Warning regardless of
the Amazon side; a sentinel-free comparison yields Match iff every known PIM
duration occurs among the Amazon durations, and otherwise Need upload with the
missing set (known PIM durations absent from Amazon) reported as a sorted
duplicate-free list. -/
theorem C3_video_parity (amazonDur icepimDur : List String) :
    (has_unknown_in_icepim icepimDur = true ↔ ∃ d ∈ icepimDur, d ∈ video_sentinels)
    ∧ (has_unknown_in_icepim icepimDur = true →
        video_status amazonDur icepimDur = "Warning")
    ∧ (has_unknown_in_icepim icepimDur = false →
        ((video_status amazonDur icepimDur = "Match" ↔
            ∀ d ∈ icepim_known_dur icepimDur, d ∈ amazonDur)
        ∧ (¬ (∀ d ∈ icepim_known_dur icepimDur, d ∈ amazonDur) →
            video_status amazonDur icepimDur = "Need upload"
            ∧ List.Sorted (fun x y : String => x ≤ y) (video_missing amazonDur icepimDur)
            ∧ (video_missing amazonDur icepimDur).Nodup
            ∧ ∀ d : String, (d ∈ video_missing amazonDur icepimDur ↔
                d ∈ icepim_known_dur icepimDur ∧ d ∉ amazonDur)))) := by
refine ⟨?_, ?_, ?_⟩
· simp [has_unknown_in_icepim]
· intro h
  unfold video_status
  rw [if_pos h]
· intro h
  have subLem : icepim_known_subset amazonDur icepimDur = true ↔
      ∀ d ∈ icepim_known_dur icepimDur, d ∈ amazonDur := by
    simp [icepim_known_subset]
  have hv : video_status amazonDur icepimDur =
      (if icepim_known_subset amazonDur icepimDur = true then "Match"
       else "Need upload") := by
    unfold video_status
    rw [h]
    simp
  constructor
  · rw [hv]
    by_cases hs : icepim_known_subset amazonDur icepimDur = true
    · rw [if_pos hs]
      simp only [true_iff]
      exact subLem.mp hs
    · rw [if_neg hs]
      constructor
      · intro hbad
        exact absurd hbad (by decide)
      · intro hall
        exact absurd (subLem.mpr hall) hs
  · intro hnall
    have hs : ¬ (icepim_known_subset amazonDur icepimDur = true) :=
      fun hh => hnall (subLem.mp hh)
    refine ⟨by rw [hv, if_neg hs], ?_, ?_, ?_⟩
    · exact List.sorted_insertionSort _ _
    · unfold video_missing
      apply List.Nodup.perm ?_ (List.perm_insertionSort _ _).symm
      exact List.Nodup.filter _ (List.nodup_dedup _)
    · intro d
      unfold video_missing
      rw [List.mem_insertionSort, List.mem_filter, List.mem_dedup]
      simp

/-- Witness for C3 at a concrete PIM duration list with a sentinel. -/
theorem C3_video_parity_witness :
    video_status ["1:30"] ["?:??"] = "Warning" :=
(C3_video_parity ["1:30"] ["?:??"]).2.1 (by decide)

/-! ## Helper lemmas: counting and the image aggregation -/

/-- Counting monotonicity under pointwise implication. -/
theorem countP_le_of_imp {α : Type} (p q : α → Bool) :
    ∀ l : List α, (∀ x ∈ l, p x = true → q x = true) → l.countP p ≤ l.countP q := by
intro l
induction l with
| nil => intro _; simp
| cons a t ih =>
  intro h
  rw [List.countP_cons, List.countP_cons]
  have ht := ih (fun x hx => h x (List.mem_cons_of_mem a hx))
  by_cases hp : p a = true
  · have hq := h a (List.mem_cons_self a t) hp
    rw [hp, hq]
    simpa using ht
  · rw [Bool.not_eq_true] at hp
    rw [hp]
    cases hq : q a <;> simp <;> omega

/-- Counting respects pointwise equality on the list. -/
theorem countP_congr_mem {α : Type} (p q : α → Bool) :
    ∀ l : List α, (∀ x ∈ l, p x = q x) → l.countP p = l.countP q := by
intro l
induction l with
| nil => intro _; rfl
| cons a t ih =>
  intro h
  rw [List.countP_cons, List.countP_cons, h a (List.mem_cons_self a t),
    ih (fun x hx => h x (List.mem_cons_of_mem a hx))]

/-- With `p` pointwise below `q`, equal counts force the reverse implication. -/
theorem countP_eq_imp_rev {α : Type} (p q : α → Bool) :
    ∀ l : List α, (∀ x ∈ l, p x = true → q x = true) →
      l.countP p = l.countP q → ∀ x ∈ l, q x = true → p x = true := by
intro l
induction l with
| nil => intro _ _ x hx; simp at hx
| cons a t ih =>
  intro h heq x hx hqx
  have hmono := countP_le_of_imp p q t (fun y hy => h y (List.mem_cons_of_mem a hy))
  rw [List.countP_cons, List.countP_cons] at heq
  rcases List.mem_cons.mp hx with rfl | hxt
  · by_contra hp
    rw [Bool.not_eq_true] at hp
    rw [hp, hqx] at heq
    simp at heq
    omega
  · cases hp : p a
    · have hq2 : q a = false := by
        by_contra hq
        rw [Bool.not_eq_false] at hq
        rw [hp, hq] at heq
        simp at heq
        omega
      rw [hp, hq2] at heq
      simp at heq
      exact ih (fun y hy => h y (List.mem_cons_of_mem a hy)) heq x hxt hqx
    · have hq := h a (List.mem_cons_self a t) hp
      rw [hp, hq] at heq
      simp at heq
      exact ih (fun y hy => h y (List.mem_cons_of_mem a hy)) heq x hxt hqx

/-- Equal counts are equivalent to the reverse pointwise implication. -/
theorem countP_eq_iff_of_imp {α : Type} (p q : α → Bool) (l : List α)
    (h : ∀ x ∈ l, p x = true → q x = true) :
    l.countP p = l.countP q ↔ ∀ x ∈ l, q x = true → p x = true := by
constructor
· exact countP_eq_imp_rev p q l h
· intro hrev
  apply countP_congr_mem
  intro x hx
  cases hp : p x
  · cases hq : q x
    · rfl
    · have := hrev x hx hq
      rw [hp] at this
      exact absurd this (by simp)
  · rw [h x hx hp]

/-- A matched pair is in particular a formed pair. -/
theorem pair_matched_imp_both (aF iF : List ImgFile) (b : String) :
    pair_matched aF iF b = true → pair_both aF iF b = true := by
unfold pair_matched pair_both
cases dict_get aF b <;> cases dict_get iF b <;> simp

/-- Every base key forming a pair occurs in the iterated base list. -/
theorem pair_both_mem_bases (A B : List ImgFile) (b : String)
    (h : pair_both (a_files A) (i_files B) b = true) : b ∈ img_bases A B := by
unfold pair_both at h
rw [Bool.and_eq_true] at h
obtain ⟨h1, _⟩ := h
rw [Option.isSome_iff_exists] at h1
obtain ⟨f, hf⟩ := h1
unfold dict_get at hf
have hf2 : f ∈ (a_files A).filter (fun g => splitextBase g.name == b) :=
  List.mem_of_getLast?_eq_some hf
rw [List.mem_filter] at hf2
obtain ⟨hfa, hfb⟩ := hf2
have hb : splitextBase f.name = b := by simpa using hfb
unfold img_bases all_bases
rw [List.mem_insertionSort, List.mem_dedup, List.mem_append]
left
exact List.mem_map.mpr ⟨f.name, List.mem_map.mpr ⟨f, hfa, rfl⟩, hb⟩

/-- The overall verdict of the gallery comparison, as a decided condition. -/
theorem images_match_eq (A B : List ImgFile) :
    (compare_images_by_name_strict A B).images_match =
      decide ((a_files A).length = (i_files B).length ∧
        matched_count A B = total_pairs A B) := by
simp only [compare_images_by_name_strict]
split_ifs with h h2
· simp [h]
· simp [h]
· simp [h]

/-! ## Claim theorems: image parity -/

/-- Claim C4: the overall images verdict is MATCH iff the two folders hold
equally many image files and every pair formed from a base key present in both
folders is a MATCH pair (a hash failure, ERROR, is never counted as matched);
on a mismatch the detail string reports both counts and the mismatch tally. -/
theorem C4_images_aggregate (A B : List ImgFile) :
    ((compare_images_by_name_strict A B).images_match = true ↔
      ((a_files A).length = (i_files B).length ∧
        ∀ b ∈ img_bases A B,
          pair_both (a_files A) (i_files B) b = true →
          pair_matched (a_files A) (i_files B) b = true))
    ∧ ((compare_images_by_name_strict A B).images_match = false →
        (compare_images_by_name_strict A B).detailed_summary =
          (if (a_files A).length ≠ (i_files B).length then
            toString (a_files A).length ++ " Amazon / " ++
              toString (i_files B).length ++ " PIM, Different q-ty, " ++
              toString (total_pairs A B - matched_count A B) ++ " Mismatch"
          else
            toString (a_files A).length ++ " Amazon / " ++
              toString (i_files B).length ++ " PIM, " ++
              toString (matched_count A B) ++ " Match, " ++
              toString (total_pairs A B - matched_count A B) ++ " Mismatch")) := by
constructor
· rw [images_match_eq, decide_eq_true_eq]
  apply and_congr_right
  intro _
  unfold matched_count total_pairs
  exact countP_eq_iff_of_imp _ _ _
    (fun b _ => pair_matched_imp_both (a_files A) (i_files B) b)
· intro hf
  simp only [compare_images_by_name_strict] at hf ⊢
  split_ifs at hf ⊢ with h h2
  all_goals rfl

/-- Witness for C4 at a concrete matching pair of folders. -/
theorem C4_images_aggregate_witness :
    (compare_images_by_name_strict [⟨"k.MAIN.jpg", some "ff"⟩]
      [⟨"k.MAIN.png", some "ff"⟩]).images_match = true :=
(C4_images_aggregate [⟨"k.MAIN.jpg", some "ff"⟩] [⟨"k.MAIN.png", some "ff"⟩]).1.mpr
  ⟨by decide, by decide⟩

/-- Claim C5 counterexample: the source compares hex digest CHARACTERS, not
bits.  The digests 0000000000000000 and f000000000000000 differ in one
character but in 4 bits: the claimed bit threshold says DIFFER, the code says
MATCH (also at the whole-gallery level). -/
theorem C5_counterexample :
    pair_status "0000000000000000" "f000000000000000" = "MATCH"
    ∧ hamming_bits_spec "0000000000000000" "f000000000000000" = 4
    ∧ ¬ (4 ≤ IMAGE_THRESHOLD)
    ∧ (compare_images_by_name_strict [⟨"A.MAIN.jpg", some "0000000000000000"⟩]
        [⟨"A.MAIN.png", some "f000000000000000"⟩]).images_match = true := by decide

/-- Claim C5 (amended): the pair verdict is MATCH iff the number of differing
hexadecimal digest characters is at most the fixed threshold 3 (each character
covering 4 hash bits); exactly 3 differing characters yields MATCH and 4
yields DIFFER. -/
theorem C5_amended :
    (∀ h1 h2 : String, pair_status h1 h2 = "MATCH" ↔
      hash_dist h1 h2 ≤ IMAGE_THRESHOLD)
    ∧ (hash_dist "0123456789abcdef" "0123456789abc000" = 3
        ∧ pair_status "0123456789abcdef" "0123456789abc000" = "MATCH")
    ∧ (hash_dist "0123456789abcdef" "0123456789ab0000" = 4
        ∧ pair_status "0123456789abcdef" "0123456789ab0000" = "DIFFER") := by
refine ⟨?_, by decide, by decide⟩
intro h1 h2
unfold pair_status
by_cases h : hash_dist h1 h2 ≤ IMAGE_THRESHOLD
· rw [if_pos h]
  simp [h]
· rw [if_neg h]
  constructor
  · intro hbad
    exact absurd hbad (by decide)
  · intro hh
    exact absurd hh h

/-- Witness for C5 (amended) at a concrete pair of equal digests. -/
theorem C5_amended_witness :
    pair_status "abcd" "abcd" = "MATCH" :=
(C5_amended.1 "abcd" "abcd").mpr (by decide)

/-! ## Helper lemmas: symmetry of the pair comparison -/

/-- The zipped character-difference count is symmetric. -/
theorem zip_ne_countP_symm : ∀ (l1 l2 : List Char),
    (l1.zip l2).countP (fun p => decide (p.1 ≠ p.2)) =
    (l2.zip l1).countP (fun p => decide (p.1 ≠ p.2)) := by
intro l1
induction l1 with
| nil => intro l2; cases l2 <;> rfl
| cons a t ih =>
  intro l2
  cases l2 with
  | nil => rfl
  | cons b u =>
    rw [List.zip_cons_cons, List.zip_cons_cons, List.countP_cons, List.countP_cons,
      ih u]
    have : decide (a ≠ b) = decide (b ≠ a) := decide_eq_decide.mpr ne_comm
    rw [this]

/-- Character distance of two digests is symmetric. -/
theorem hash_dist_symm (h1 h2 : String) : hash_dist h1 h2 = hash_dist h2 h1 :=
zip_ne_countP_symm h1.data h2.data

/-- Threshold test on two optional hashes is symmetric. -/
theorem hash_ok_symm (o1 o2 : Option String) : hash_ok o1 o2 = hash_ok o2 o1 := by
cases o1 with
| none => cases o2 <;> rfl
| some h1 =>
  cases o2 with
  | none => rfl
  | some h2 =>
    show decide (hash_dist h1 h2 ≤ IMAGE_THRESHOLD) =
      decide (hash_dist h2 h1 ≤ IMAGE_THRESHOLD)
    rw [hash_dist_symm]

/-- A base key forms a pair independently of the folder order. -/
theorem pair_both_symm (aF iF : List ImgFile) (b : String) :
    pair_both aF iF b = pair_both iF aF b := by
unfold pair_both
rw [Bool.and_comm]

/-- A base key is matched independently of the folder order. -/
theorem pair_matched_symm (aF iF : List ImgFile) (b : String) :
    pair_matched aF iF b = pair_matched iF aF b := by
unfold pair_matched
cases dict_get aF b <;> cases dict_get iF b <;> simp [hash_ok_symm]

/-- The sorted deduplicated base-key union is symmetric. -/
theorem all_bases_comm (u v : List String) : all_bases u v = all_bases v u := by
unfold all_bases
apply List.eq_of_perm_of_sorted ?_ (List.sorted_insertionSort _ _)
  (List.sorted_insertionSort _ _)
refine ((List.perm_insertionSort _ _).trans ?_).trans
  (List.perm_insertionSort _ _).symm
apply (List.perm_ext_iff_of_nodup (List.nodup_dedup _) (List.nodup_dedup _)).mpr
intro a
rw [List.mem_dedup, List.mem_dedup, List.mem_append, List.mem_append]
exact or_comm

/-! ## Claim theorems: gallery swap symmetry -/

/-- Claim C6 counterexample: the two folder slots use DIFFERENT extension
filters (lines 843-844: the Amazon slot ignores .png files, the PIM slot
accepts them), so swapping the folders can change the overall outcome: a
folder holding one .png versus an empty folder gives a mismatch one way and a
MATCH the other way. -/
theorem C6_counterexample :
    (compare_images_by_name_strict [] [⟨"IMG.png", some "aa"⟩]).images_match = false
    ∧ (compare_images_by_name_strict [⟨"IMG.png", some "aa"⟩] []).images_match = true := by
decide

/-- Claim C6 (amended): for folders whose files all carry .jpg/.jpeg
extensions — where the two slots' extension filters coincide — swapping which
folder is passed as source A and which as source B does not change the overall
match outcome of the gallery comparison. -/
theorem C6_amended (A B : List ImgFile)
    (hA : ∀ f ∈ A, isJpg f.name = true) (hB : ∀ f ∈ B, isJpg f.name = true) :
    (compare_images_by_name_strict A B).images_match =
    (compare_images_by_name_strict B A).images_match := by
have hpng : ∀ (L : List ImgFile), (∀ f ∈ L, isJpg f.name = true) →
    ∀ f ∈ L, isJpgPng f.name = true := by
  intro L hL f hf
  unfold isJpgPng
  rw [hL f hf, Bool.true_or]
have haA : a_files A = A := List.filter_eq_self.mpr hA
have haB : a_files B = B := List.filter_eq_self.mpr hB
have hiA : i_files A = A := List.filter_eq_self.mpr (hpng A hA)
have hiB : i_files B = B := List.filter_eq_self.mpr (hpng B hB)
have hbases : img_bases A B = img_bases B A := by
  unfold img_bases
  rw [haA, haB, hiA, hiB]
  exact all_bases_comm _ _
have hmt : matched_count A B = matched_count B A := by
  unfold matched_count
  rw [hbases]
  apply countP_congr_mem
  intro b _
  rw [haA, hiB, haB, hiA]
  exact pair_matched_symm A B b
have htp : total_pairs A B = total_pairs B A := by
  unfold total_pairs
  rw [hbases]
  apply countP_congr_mem
  intro b _
  rw [haA, hiB, haB, hiA]
  exact pair_both_symm A B b
rw [images_match_eq, images_match_eq, haA, hiB, haB, hiA, hmt, htp]
apply decide_eq_decide.mpr
constructor
· rintro ⟨h1, h2⟩
  exact ⟨h1.symm, h2⟩
· rintro ⟨h1, h2⟩
  exact ⟨h1.symm, h2⟩

/-- Witness for C6 (amended) at a concrete jpg-only folder pair. -/
theorem C6_amended_witness :
    (compare_images_by_name_strict [⟨"x.jpg", some "00"⟩] []).images_match =
    (compare_images_by_name_strict [] [⟨"x.jpg", some "00"⟩]).images_match :=
C6_amended [⟨"x.jpg", some "00"⟩] [] (by decide) (by decide)

/-! ## Claim theorems: batch behaviour -/

/-- Claim C7 (code bug): a failure of `amazon_driver.get` (line 981) is NOT
converted to a degraded snapshot — it is raised outside `parse_amazon`'s
`try`, resurfaces at `future_amazon.result()` (line 1098) and aborts the whole
batch with no row for the item (nor for any later item), while a failure
inside either parser's `try` is degraded into exactly one placeholder row. -/
theorem C7_nav_failure_aborts :
    (run_batch false false [envC7_nav, envC7_parse]).rows = []
    ∧ (run_batch false false [envC7_nav, envC7_parse]).aborted = true
    ∧ (run_batch false false [envC7_parse]).rows =
        [{ asin := "unknown_1", titleV := "MATCH", bulletsV := "MATCH",
           imagesV := "MATCH", icepimStatus := "ERROR", userManual := "NO",
           brandStore := "NO", videoV := "Match",
           videoDetails := "A:0 () | I:0 () → All IcePIM videos present on Amazon",
           imagesDetails := "Image check disabled" }]
    ∧ (run_batch false false [envC7_parse]).aborted = false := by decide

/-- Claim C8 counterexample: on the exceptional exit path of an item (Amazon
navigation raising after the IcePIM future already extracted the gallery) the
cleanup of lines 1182-1186 is skipped — there is no try/finally — and the
extracted PIM folder and the zip archive remain on disk. -/
theorem C8_counterexample :
    (run_batch true false [envC8_leak]).aborted = true
    ∧ tmp_icepim "B00000000A" ∈ (run_batch true false [envC8_leak]).leftover
    ∧ zip_name "B00000000A" ∈ (run_batch true false [envC8_leak]).leftover := by decide

/-- Claim C8 (amended): on every NORMAL (non-exceptional) completion of an
item's processing, regardless of the item's verdict, the downloaded
marketplace image folder, the extracted PIM gallery folder and the gallery zip
archive are all removed before the orchestrator advances; an exceptional exit
skips the cleanup (and aborts the run). -/
theorem C8_amended (checkImages checkVideos : Bool) (idx : Nat) (env : ItemEnv)
    (h : env.nav_raises = false) :
    (run_item checkImages checkVideos idx env).row.isSome = true
    ∧ tmp_amazon (item_asin idx env) ∉
        (run_item checkImages checkVideos idx env).leftover
    ∧ tmp_icepim (item_asin idx env) ∉
        (run_item checkImages checkVideos idx env).leftover
    ∧ zip_name (item_asin idx env) ∉
        (run_item checkImages checkVideos idx env).leftover := by
have hmem : ∀ p ∈ cleanup_paths (item_asin idx env),
    p ∉ (run_item checkImages checkVideos idx env).leftover := by
  intro p hp hcontra
  simp only [run_item, h] at hcontra
  rw [if_neg (by simp)] at hcontra
  simp only [List.mem_filter] at hcontra
  obtain ⟨_, hpred⟩ := hcontra
  simp at hpred
  exact hpred hp
refine ⟨?_, hmem _ ?_, hmem _ ?_, hmem _ ?_⟩
· simp only [run_item, h]
  rw [if_neg (by simp)]
  rfl
· simp [cleanup_paths]
· simp [cleanup_paths]
· simp [cleanup_paths]

/-- Witness for C8 (amended) at a concrete successfully processed item. -/
theorem C8_amended_witness :
    tmp_icepim (item_asin 1 envC8_ok) ∉ (run_item true false 1 envC8_ok).leftover :=
(C8_amended true false 1 envC8_ok rfl).2.2.1

/-- Claim C9 counterexample: a PIM duration list with no non-sentinel entries
need not give Match — the all-sentinel list ["?:??"] has an empty known set
yet yields Warning. -/
theorem C9_counterexample :
    icepim_known_dur ["?:??"] = []
    ∧ video_status [] ["?:??"] = "Warning"
    ∧ video_status [] ["?:??"] ≠ "Match" := by decide

/-- Claim C9 (amended): whenever the PIM duration list is EMPTY — in
particular whenever video checking is disabled, which forces both sides'
duration lists empty — the video verdict is Match, the empty known set being a
subset of any set; a PIM list consisting only of sentinels yields Warning
instead; and the verdict is always one of Match/Warning/Need upload, never a
distinct not-checked marker. -/
theorem C9_amended :
    (∀ amazonDur : List String, video_status amazonDur [] = "Match")
    ∧ (∀ p : ParseOutcome AmazonData,
        (parse_amazon_result false p).videos_durations = [])
    ∧ (∀ q : ParseOutcome IcePimData,
        (parse_icepim_result false q).videos_durations = [])
    ∧ (∀ amazonDur icepimDur : List String,
        video_status amazonDur icepimDur = "Match"
        ∨ video_status amazonDur icepimDur = "Warning"
        ∨ video_status amazonDur icepimDur = "Need upload") := by
refine ⟨?_, ?_, ?_, ?_⟩
· intro aDur
  rfl
· intro p
  cases p <;> rfl
· intro q
  cases q <;> rfl
· intro a i
  unfold video_status
  by_cases h1 : has_unknown_in_icepim i = true
  · rw [if_pos h1]
    right
    left
    rfl
  · rw [if_neg h1]
    by_cases h2 : icepim_known_subset a i = true
    · rw [if_pos h2]
      left
      rfl
    · rw [if_neg h2]
      right
      right
      rfl

/-- Witness for C9 (amended) at a concrete Amazon duration list. -/
theorem C9_amended_witness : video_status ["1:30"] [] = "Match" :=
C9_amended.1 ["1:30"]

/-- When image checking is disabled, the per-item comparison row always
carries the MATCH verdict and the fixed disabled detail. -/
theorem run_item_images_disabled (checkVideos : Bool) (idx : Nat) (env : ItemEnv)
    (r : Row) (h : (run_item false checkVideos idx env).row = some r) :
    r.imagesV = "MATCH" ∧ r.imagesDetails = "Image check disabled" := by
by_cases hn : env.nav_raises = true
· simp [run_item, hn] at h
· rw [Bool.not_eq_true] at hn
  simp only [run_item, hn] at h
  rw [if_neg (by simp)] at h
  simp only [Option.some.injEq] at h
  rw [← h]
  exact ⟨rfl, rfl⟩

/-- All rows of an image-check-disabled batch carry the disabled verdict. -/
theorem run_batch_go_images_disabled (checkVideos : Bool) :
    ∀ (items : List ItemEnv) (idx : Nat) (r : Row),
      r ∈ (run_batch_go false checkVideos idx items).rows →
      r.imagesV = "MATCH" ∧ r.imagesDetails = "Image check disabled" := by
intro items
induction items with
| nil =>
  intro idx r hr
  simp [run_batch_go] at hr
| cons env rest ih =>
  intro idx r hr
  rw [run_batch_go] at hr
  cases hrow : (run_item false checkVideos idx env).row with
  | some row =>
    rw [hrow] at hr
    simp only [List.mem_cons] at hr
    rcases hr with rfl | hr
    · exact run_item_images_disabled checkVideos idx env r hrow
    · exact ih (idx + 1) r hr
  | none =>
    rw [hrow] at hr
    simp at hr

/-- Claim C10: with image checking disabled every report row's images verdict
is MATCH with the fixed detail "Image check disabled"; in the verdict column
this is indistinguishable from an enabled run in which every image matched. -/
theorem C10_images_disabled :
    (∀ (checkVideos : Bool) (items : List ItemEnv),
      ∀ r ∈ (run_batch false checkVideos items).rows,
        r.imagesV = "MATCH" ∧ r.imagesDetails = "Image check disabled")
    ∧ (run_batch true false [envC10_match]).rows.map Row.imagesV = ["MATCH"]
    ∧ (run_batch true false [envC10_match]).rows.map Row.imagesDetails =
        ["1 Amazon / 1 PIM, all MATCH"] := by
refine ⟨?_, by decide, by decide⟩
intro cv items r hr
exact run_batch_go_images_disabled cv items 1 r hr

/-- Witness for C10 at a concrete disabled-run row. -/
theorem C10_images_disabled_witness :
    rowC10.imagesV = "MATCH" ∧ rowC10.imagesDetails = "Image check disabled" :=
C10_images_disabled.1 false [envC10_off] rowC10 (by decide)

end AMZ
